import Mathlib

/-!
A shallow embedding, in Lean 4, of the Movie Lobby REST API
(`src/controllers/MovieController.ts`, `src/middleware/authMiddleware.ts`,
`src/models/movie.ts`, `src/routes/movieRoutes.ts`).

Modelling conventions:
* The MongoDB collection is a `Store`: a list of persisted `Movie` documents
  together with the next identifier the store will assign.  MongoDB
  `ObjectId` values are abstracted to `Nat`; casting a request-path id
  string to an `ObjectId` is abstracted by `castId` (strings that parse as
  numerals play the role of castable id strings, every other string throws
  a `CastError`, modelled as `Except.error`).
* `jwt.verify` is an external library call configured by an environment
  secret, so the verifier is a parameter `verify : String → Option Claims`:
  `none` models a thrown verification error, `some c` a decoded payload.
* Mongoose schema validation (`movie.ts`): `required : true` on a `String`
  path rejects missing values and the empty string; `min 0` / `max 10`
  bound `rating`.  Ratings are modelled as `ℚ` (exact order comparisons,
  as for the range checks on JS numbers).
* `findByIdAndUpdate` follows its Mongoose default semantics: update
  validators are NOT run (no `runValidators` option is passed in the
  source), the update is applied as a `$set` of the provided fields, and
  `new : true` returns the post-update document.
* The `$regex` search is modelled by a matcher `regexTest` for the
  fragment of patterns consisting of literal characters and the `.`
  wildcard, with the case-insensitive (`i`) option; case folding is ASCII
  `Char.toLower`, enough for every concrete instance used here.
* Each Express handler is a function `Store → ... → Store × HttpResponse`:
  the returned store is the collection state after the request, the
  response carries the status code and the JSON body.
-/

namespace MovieLobby

/-- A persisted movie document (`IMovie` in `movie.ts`). -/
structure Movie where
  id : Nat
  title : String
  genre : String
  rating : ℚ
  streamingLink : String
deriving DecidableEq, Repr

/-- The movie collection: persisted documents plus the next store-assigned id. -/
structure Store where
  docs : List Movie
  nextId : Nat
deriving DecidableEq, Repr

/-- A JSON response body: either a `{"message": ...}` object, a single
movie document, or an array of movie documents. -/
inductive RespBody where
  | msg (s : String)
  | movie (m : Movie)
  | movies (l : List Movie)
deriving DecidableEq, Repr

/-- An HTTP response: status code and JSON body. -/
structure HttpResponse where
  status : Nat
  body : RespBody
deriving DecidableEq, Repr

/-- The decoded JWT payload; the gate only inspects its `role` claim. -/
structure Claims where
  role : String
deriving DecidableEq, Repr

/-- Abstraction of casting a path-parameter string to a MongoDB ObjectId:
`some` for castable id strings, `none` for strings whose cast throws. -/
def castId (s : String) : Option Nat :=
  if s.data ≠ [] ∧ s.data.all Char.isDigit then
    some (s.data.foldl (fun n c => n * 10 + (c.toNat - '0'.toNat)) 0)
  else none

/-- The request body of `POST /movies` after the controller's destructuring
`const \x7b title, genre, rating, streamingLink \x7d = req.body`: each field
may be absent. -/
structure MovieInput where
  title : Option String
  genre : Option String
  rating : Option ℚ
  streamingLink : Option String
deriving DecidableEq, Repr

/-- The partial-update body of `PUT /movies/:id`: any subset of the four
schema fields. -/
structure UpdateBody where
  title : Option String := none
  genre : Option String := none
  rating : Option ℚ := none
  streamingLink : Option String := none
deriving DecidableEq, Repr

/-- Mongoose schema validation of `movie.ts`: all four paths `required`
(which for `String` paths rejects the empty string) and `rating` within
`min 0` / `max 10`. -/
def validateMovie (t g : String) (r : ℚ) (l : String) : Bool :=
  (t != "") && (g != "") && (l != "") && decide ((0 : ℚ) ≤ r) && decide (r ≤ (10 : ℚ))

/-- `new Movie(...).save()`: runs schema validation, assigns the next id,
and appends the document; a validation failure is a thrown error. -/
def saveMovie (st : Store) (b : MovieInput) : Except Unit (Movie × Store) :=
  match b.title, b.genre, b.rating, b.streamingLink with
  | some t, some g, some r, some l =>
      if validateMovie t g r l then
        let m : Movie := { id := st.nextId, title := t, genre := g, rating := r, streamingLink := l }
        .ok (m, { docs := st.docs ++ [m], nextId := st.nextId + 1 })
      else .error ()
  | _, _, _, _ => .error ()

/-- `$set`-application of an update body to a document (Mongoose casts the
plain update object to a `$set` of the provided fields); the `_id` is
never part of the update. -/
def applyUpdate (m : Movie) (u : UpdateBody) : Movie :=
  { id := m.id
    title := u.title.getD m.title
    genre := u.genre.getD m.genre
    rating := u.rating.getD m.rating
    streamingLink := u.streamingLink.getD m.streamingLink }

/-- `Movie.findByIdAndUpdate(id, body, \x7b new: true \x7d)` with Mongoose
default options: throws (`error`) when the id string cannot be cast;
returns `none` when no document has that id; otherwise applies the update
(update validators are off by default) and returns the post-update
document. -/
def findByIdAndUpdate (st : Store) (idStr : String) (u : UpdateBody) :
    Except Unit (Option Movie × Store) :=
  match castId idStr with
  | none => .error ()
  | some i =>
      match st.docs.find? (fun d => d.id == i) with
      | none => .ok (none, st)
      | some m =>
          let m2 := applyUpdate m u
          .ok (some m2, { docs := st.docs.map (fun d => if d.id == i then m2 else d),
                          nextId := st.nextId })

/-- `Movie.findByIdAndDelete(id)`: throws when the id string cannot be
cast; returns `none` when no document has that id; otherwise removes the
document and returns it. -/
def findByIdAndDelete (st : Store) (idStr : String) :
    Except Unit (Option Movie × Store) :=
  match castId idStr with
  | none => .error ()
  | some i =>
      match st.docs.find? (fun d => d.id == i) with
      | none => .ok (none, st)
      | some m =>
          .ok (some m, { docs := st.docs.filter (fun d => !(d.id == i)),
                         nextId := st.nextId })

/-- Case-insensitive match of a pattern (literal characters and the `.`
wildcard) against a prefix of the text. -/
def matchHere : List Char → List Char → Bool
  | [], _ => true
  | _ :: _, [] => false
  | p :: ps, c :: cs => (p = '.' || p.toLower = c.toLower) && matchHere ps cs

/-- Unanchored regex search (`/pat/i.test text` semantics): the pattern
matches at some position of the text. -/
def regexTest (pat : List Char) : List Char → Bool
  | [] => matchHere pat []
  | c :: cs => matchHere pat (c :: cs) || regexTest pat cs

/-- Case-insensitive literal match of a needle against a prefix of the
text (no wildcard: every needle character stands for itself). -/
def litHere : List Char → List Char → Bool
  | [], _ => true
  | _ :: _, [] => false
  | p :: ps, c :: cs => (p.toLower = c.toLower) && litHere ps cs

/-- Case-insensitive substring containment: the needle occurs literally at
some position of the text. -/
def ciContains (needle : List Char) : List Char → Bool
  | [] => litHere needle []
  | c :: cs => litHere needle (c :: cs) || ciContains needle cs

/-- The characters that are special in a JS regular expression. -/
def isMeta (c : Char) : Bool :=
  c = '.' || c = '*' || c = '+' || c = '?' || c = '^' || c = '$' ||
  c = '(' || c = ')' || c = '[' || c = ']' || c = '\x7b' || c = '\x7d' ||
  c = '|' || c = '\\'

/-- `MovieController.listMovies`: `Movie.find()` and a 200 with the array. -/
def listMovies (st : Store) : Store × HttpResponse :=
  (st, ⟨200, .movies st.docs⟩)

/-- `MovieController.searchMovies`: `Movie.find` with an `$or` of two
case-insensitive `$regex` conditions on `title` and `genre`, and a 200
with the matching array. -/
def searchMovies (st : Store) (q : String) : Store × HttpResponse :=
  (st, ⟨200, .movies (st.docs.filter
    (fun m => regexTest q.data m.title.data || regexTest q.data m.genre.data))⟩)

/-- `MovieController.addMovie`: save the new document, 201 with it on
success, 400 `Invalid data` when the save throws. -/
def addMovie (st : Store) (b : MovieInput) : Store × HttpResponse :=
  match saveMovie st b with
  | .ok (m, st2) => (st2, ⟨201, .movie m⟩)
  | .error _ => (st, ⟨400, .msg "Invalid data"⟩)

/-- `MovieController.updateMovie`: 400 `Invalid data` when the store call
throws, 404 `Movie not found` when no document matches, otherwise 200 with
the post-update document. -/
def updateMovie (st : Store) (idStr : String) (u : UpdateBody) : Store × HttpResponse :=
  match findByIdAndUpdate st idStr u with
  | .error _ => (st, ⟨400, .msg "Invalid data"⟩)
  | .ok (none, _) => (st, ⟨404, .msg "Movie not found"⟩)
  | .ok (some m, st2) => (st2, ⟨200, .movie m⟩)

/-- `MovieController.deleteMovie`: 500 `Server error` when the store call
throws, 404 `Movie not found` when no document matches, otherwise 200 with
a confirmation message. -/
def deleteMovie (st : Store) (idStr : String) : Store × HttpResponse :=
  match findByIdAndDelete st idStr with
  | .error _ => (st, ⟨500, .msg "Server error"⟩)
  | .ok (none, _) => (st, ⟨404, .msg "Movie not found"⟩)
  | .ok (some _, st2) => (st2, ⟨200, .msg "Movie deleted successfully"⟩)

/-- JavaScript `String.prototype.split(' ')` on the character list of the
header: splits at every space, keeping empty pieces. -/
def splitSp : List Char → List (List Char)
  | [] => [[]]
  | c :: cs =>
      match splitSp cs with
      | [] => [[]]
      | w :: ws => if c = ' ' then [] :: w :: ws else (c :: w) :: ws

/-- `req.headers.authorization?.split(' ')[1]` followed by the falsy check
`if (!token)`: `none` when the header is absent, has no second
space-separated word, or that word is empty. -/
def extractToken (header : Option String) : Option String :=
  match header with
  | none => none
  | some h =>
      match (splitSp h.data).get? 1 with
      | none => none
      | some t => if t = [] then none else some (String.mk t)

/-- Outcome of the auth middleware: either a response is sent and the
chain stops, or `next()` passes control to the wrapped handler. -/
inductive GateResult where
  | block (r : HttpResponse)
  | pass
deriving DecidableEq, Repr

/-- `AuthMiddleware.authenticateAdmin`: 401 `Unauthorized` when no token
is extracted or verification throws, 403 `Forbidden` when the decoded
role is not `admin`, otherwise `next()`. -/
def authenticateAdmin (verify : String → Option Claims) (header : Option String) : GateResult :=
  match extractToken header with
  | none => .block ⟨401, .msg "Unauthorized"⟩
  | some tok =>
      match verify tok with
      | none => .block ⟨401, .msg "Unauthorized"⟩
      | some c => if c.role = "admin" then .pass else .block ⟨403, .msg "Forbidden"⟩

/-- A request to one of the three mutating routes of `movieRoutes.ts`. -/
inductive MutatingRequest where
  | post (body : MovieInput)
  | put (id : String) (body : UpdateBody)
  | del (id : String)
deriving DecidableEq, Repr

/-- The controller handler a mutating route is bound to. -/
def runHandler (req : MutatingRequest) (st : Store) : Store × HttpResponse :=
  match req with
  | .post b => addMovie st b
  | .put i b => updateMovie st i b
  | .del i => deleteMovie st i

/-- Router dispatch for the mutating routes: `authenticateAdmin` runs
first, and only on `next()` does the bound controller handler run. -/
def dispatchMutating (verify : String → Option Claims) (header : Option String)
    (req : MutatingRequest) (st : Store) : Store × HttpResponse :=
  match authenticateAdmin verify header with
  | .block r => (st, r)
  | .pass => runHandler req st

/-- A sample verifier: token `good` decodes to an admin payload, token
`user` to a non-admin payload, everything else throws. -/
def verifyW : String → Option Claims := fun t =>
  if t = "good" then some ⟨"admin"⟩ else if t = "user" then some ⟨"user"⟩ else none

/-- A sample verifier under which the token `tok` is a valid admin JWT. -/
def verifyEx : String → Option Claims := fun t =>
  if t = "tok" then some ⟨"admin"⟩ else none

/-- A sample document whose title contains no dot. -/
def mAbc : Movie := ⟨1, "abc", "Drama", 9, "http://x"⟩

theorem splitSp_ne_nil (cs : List Char) : splitSp cs ≠ [] := by
  cases cs with
  | nil => simp [splitSp]
  | cons c cs =>
      rw [splitSp]
      cases splitSp cs with
      | nil => simp
      | cons w ws => dsimp only; split <;> simp

theorem splitSp_space_cons (rest : List Char) :
    splitSp (' ' :: rest) = [] :: splitSp rest := by
  rw [splitSp]
  cases h : splitSp rest with
  | nil => exact absurd h (splitSp_ne_nil rest)
  | cons w ws => simp

theorem splitSp_no_space (cs : List Char) (h : ' ' ∉ cs) : splitSp cs = [cs] := by
  induction cs with
  | nil => rfl
  | cons c cs ih =>
      rw [List.mem_cons, not_or] at h
      rw [splitSp, ih h.2]
      exact if_neg (fun hc => h.1 hc.symm)

theorem splitSp_append (w rest : List Char) (hw : ' ' ∉ w) :
    splitSp (w ++ ' ' :: rest) = w :: splitSp rest := by
  induction w with
  | nil => simpa using splitSp_space_cons rest
  | cons c cw ih =>
      rw [List.mem_cons, not_or] at hw
      rw [List.cons_append, splitSp, ih hw.2]
      exact if_neg (fun hc => hw.1 hc.symm)

/-- C1: on the three mutating routes the gate decides first: no extracted
token gives 401 `Unauthorized`, a token whose verification throws gives
401, a verified token whose role is not `admin` gives 403 `Forbidden`, and
in each of these cases the store is returned unchanged (the handler never
runs); only a verified admin token hands control to the bound handler. -/
theorem mutating_gate_spec (verify : String → Option Claims) (header : Option String)
    (req : MutatingRequest) (st : Store) :
    (extractToken header = none →
      dispatchMutating verify header req st = (st, ⟨401, .msg "Unauthorized"⟩)) ∧
    (∀ tok, extractToken header = some tok → verify tok = none →
      dispatchMutating verify header req st = (st, ⟨401, .msg "Unauthorized"⟩)) ∧
    (∀ tok c, extractToken header = some tok → verify tok = some c → c.role ≠ "admin" →
      dispatchMutating verify header req st = (st, ⟨403, .msg "Forbidden"⟩)) ∧
    (∀ tok c, extractToken header = some tok → verify tok = some c → c.role = "admin" →
      dispatchMutating verify header req st = runHandler req st) := by
  refine ⟨?_, ?_, ?_, ?_⟩ <;> intros <;> simp_all [dispatchMutating, authenticateAdmin]

/-- Witness for `mutating_gate_spec` at concrete requests: a missing
header, an unverifiable token, a non-admin token, and an admin token. -/
theorem mutating_gate_spec_witness :
    dispatchMutating verifyW none (.del "1") ⟨[mAbc], 2⟩ =
      (⟨[mAbc], 2⟩, ⟨401, .msg "Unauthorized"⟩) ∧
    dispatchMutating verifyW (some "Bearer bad") (.del "1") ⟨[mAbc], 2⟩ =
      (⟨[mAbc], 2⟩, ⟨401, .msg "Unauthorized"⟩) ∧
    dispatchMutating verifyW (some "Bearer user") (.del "1") ⟨[mAbc], 2⟩ =
      (⟨[mAbc], 2⟩, ⟨403, .msg "Forbidden"⟩) ∧
    dispatchMutating verifyW (some "Bearer good") (.del "1") ⟨[mAbc], 2⟩ =
      runHandler (.del "1") ⟨[mAbc], 2⟩ :=
  ⟨(mutating_gate_spec verifyW none (.del "1") ⟨[mAbc], 2⟩).1 (by decide),
   (mutating_gate_spec verifyW (some "Bearer bad") (.del "1") ⟨[mAbc], 2⟩).2.1
     "bad" (by decide) (by decide),
   (mutating_gate_spec verifyW (some "Bearer user") (.del "1") ⟨[mAbc], 2⟩).2.2.1
     "user" ⟨"user"⟩ (by decide) (by decide) (by decide),
   (mutating_gate_spec verifyW (some "Bearer good") (.del "1") ⟨[mAbc], 2⟩).2.2.2
     "good" ⟨"admin"⟩ (by decide) (by decide) rfl⟩

/-- C2 counterexample: the gate never checks the scheme word of the
Authorization header.  Under a verifier for which `tok` is a valid admin
JWT, the header `Basic tok` — which carries no `Bearer `-form token —
passes the gate instead of failing with 401. -/
theorem auth_scheme_not_checked_cex :
    authenticateAdmin verifyEx (some "Basic tok") = .pass ∧
    authenticateAdmin verifyEx (some "Basic tok") ≠ .block ⟨401, .msg "Unauthorized"⟩ := by
  decide

/-- C2 amended: the gate takes the second space-separated word of the
Authorization header as the token, ignoring the scheme word; when the
header is absent, or no non-empty second word exists, no token is
extracted and the gate responds 401 `Unauthorized`. -/
theorem auth_token_extraction (verify : String → Option Claims) :
    (∀ header, extractToken header = none →
      authenticateAdmin verify header = .block ⟨401, .msg "Unauthorized"⟩) ∧
    extractToken none = none ∧
    (∀ scheme tok : String, ' ' ∉ scheme.data → ' ' ∉ tok.data → tok ≠ "" →
      extractToken (some (scheme ++ " " ++ tok)) = some tok) := by
  refine ⟨fun header h => by simp [authenticateAdmin, h], rfl, fun scheme tok hs ht hne => ?_⟩
  have hdata : (scheme ++ " " ++ tok).data = scheme.data ++ ' ' :: tok.data := by
    simp [String.data_append]
  have hsplit : splitSp (scheme.data ++ ' ' :: tok.data) = [scheme.data, tok.data] := by
    rw [splitSp_append scheme.data tok.data hs, splitSp_no_space tok.data ht]
  have hmk : String.mk tok.data = tok := by cases tok; rfl
  have hnil : tok.data ≠ [] := by
    intro h
    exact hne (by cases tok; simp_all)
  simp [extractToken, hdata, hsplit, hnil, hmk]

/-- Witness for `auth_token_extraction`: a header with no second word is
refused with 401, and the token of `Basic tok` is `tok`. -/
theorem auth_token_extraction_witness :
    authenticateAdmin verifyEx (some "justoneword") = .block ⟨401, .msg "Unauthorized"⟩ ∧
    extractToken none = none ∧
    extractToken (some ("Basic" ++ " " ++ "tok")) = some "tok" :=
  ⟨(auth_token_extraction verifyEx).1 (some "justoneword") (by decide),
   (auth_token_extraction verifyEx).2.1,
   (auth_token_extraction verifyEx).2.2 "Basic" "tok" (by decide) (by decide) (by decide)⟩

/-- C3 (code bug): `findByIdAndUpdate` runs without update validators
(the Mongoose default, and no `runValidators` option is passed), so a
partial update that drives `rating` outside the schema range [0,10]
succeeds with 200 and persists the out-of-range record, where the spec
demands a 400 `ValidationError`.  The second conjunct attests that the
post-update record violates the schema. -/
theorem update_skips_schema_validation :
    updateMovie ⟨[⟨1, "Dune", "SciFi", 8, "http://x"⟩], 2⟩ "1" { rating := some 50 } =
      (⟨[⟨1, "Dune", "SciFi", 50, "http://x"⟩], 2⟩,
       ⟨200, .movie ⟨1, "Dune", "SciFi", 50, "http://x"⟩⟩) ∧
    validateMovie "Dune" "SciFi" 50 "http://x" = false := by
  decide

theorem matchHere_eq_litHere (pat : List Char) (h : ∀ c ∈ pat, isMeta c = false)
    (text : List Char) : matchHere pat text = litHere pat text := by
  induction pat generalizing text with
  | nil => cases text <;> rfl
  | cons p ps ih =>
      cases text with
      | nil => rfl
      | cons c cs =>
          have hp : isMeta p = false := h p (List.mem_cons_self p ps)
          have hpd : p ≠ '.' := by
            intro hEq
            subst hEq
            simp [isMeta] at hp
          rw [matchHere, litHere, ih (fun x hx => h x (List.mem_cons_of_mem p hx)) cs]
          simp [hpd]

theorem regexTest_eq_ciContains (pat : List Char) (h : ∀ c ∈ pat, isMeta c = false)
    (text : List Char) : regexTest pat text = ciContains pat text := by
  induction text with
  | nil => simpa [regexTest, ciContains] using matchHere_eq_litHere pat h []
  | cons c cs ih => simp [regexTest, ciContains, matchHere_eq_litHere pat h, ih]

theorem regexTest_nil (text : List Char) : regexTest [] text = true := by
  cases text <;> simp [regexTest, matchHere]

/-- C4 counterexample: search queries are regular expressions, not
literals.  On a store holding only a movie titled `abc`, the query `a.c`
returns that movie although `a.c` is not a case-insensitive substring of
its title or genre, so search does not return exactly the substring
matches. -/
theorem search_not_substring_cex :
    (searchMovies ⟨[mAbc], 2⟩ "a.c").2 = ⟨200, .movies [mAbc]⟩ ∧
    ciContains "a.c".data mAbc.title.data = false ∧
    ciContains "a.c".data mAbc.genre.data = false := by
  decide

/-- C4 amended: for every query string free of regex metacharacters,
search returns exactly the records whose title or genre contains the
query as a case-insensitive substring; the empty query deterministically
matches every record. -/
theorem search_substring_semantics (st : Store) (q : String)
    (h : ∀ c ∈ q.data, isMeta c = false) :
    (searchMovies st q).2 = ⟨200, .movies (st.docs.filter
        (fun m => ciContains q.data m.title.data || ciContains q.data m.genre.data))⟩ ∧
    (searchMovies st "").2 = ⟨200, .movies st.docs⟩ := by
  constructor
  · simp only [searchMovies]
    congr 2
    exact List.filter_congr (fun m _ => by
      rw [regexTest_eq_ciContains q.data h, regexTest_eq_ciContains q.data h])
  · simp only [searchMovies]
    congr 2
    rw [List.filter_eq_self]
    intro m _
    simp [regexTest_nil]

/-- Witness for `search_substring_semantics` at the metacharacter-free
query `ab` on a one-movie store. -/
theorem search_substring_semantics_witness :
    (searchMovies ⟨[mAbc], 2⟩ "ab").2 = ⟨200, .movies ((⟨[mAbc], 2⟩ : Store).docs.filter
        (fun m => ciContains "ab".data m.title.data || ciContains "ab".data m.genre.data))⟩ ∧
    (searchMovies ⟨[mAbc], 2⟩ "").2 = ⟨200, .movies (⟨[mAbc], 2⟩ : Store).docs⟩ :=
  search_substring_semantics ⟨[mAbc], 2⟩ "ab" (by decide)

/-- C5 counterexample: a payload whose four fields are all present and
whose rating is within [0,10] is still rejected when a string field is
empty, because a `required` Mongoose `String` path rejects the empty
string: `addMovie` responds 400 and persists nothing, where the claim
demands a 201. -/
theorem add_empty_title_cex :
    addMovie ⟨[], 1⟩ ⟨some "", some "Drama", some 5, some "http://x"⟩ =
      (⟨[], 1⟩, ⟨400, .msg "Invalid data"⟩) := by
  decide

/-- C5 amended: for every payload whose four fields are present, whose
string fields are non-empty, and whose rating lies in [0,10], `addMovie`
responds 201 and the created record carries exactly the payload's title,
genre, rating and streaming link (plus the store-assigned id). -/
theorem add_valid_movie (st : Store) (t g l : String) (r : ℚ)
    (ht : t ≠ "") (hg : g ≠ "") (hl : l ≠ "") (h0 : 0 ≤ r) (h10 : r ≤ 10) :
    addMovie st ⟨some t, some g, some r, some l⟩ =
      ({ docs := st.docs ++ [⟨st.nextId, t, g, r, l⟩], nextId := st.nextId + 1 },
       ⟨201, .movie ⟨st.nextId, t, g, r, l⟩⟩) := by
  have hv : validateMovie t g r l = true := by
    simp [validateMovie, ht, hg, hl, h0, h10]
  simp [addMovie, saveMovie, hv]

/-- Witness for `add_valid_movie`: a concrete valid payload is created
with status 201 and its fields round-trip. -/
theorem add_valid_movie_witness :
    addMovie ⟨[], 1⟩ ⟨some "Dune", some "SciFi", some 9, some "http://x"⟩ =
      ({ docs := ([] : List Movie) ++ [⟨1, "Dune", "SciFi", 9, "http://x"⟩], nextId := 1 + 1 },
       ⟨201, .movie ⟨1, "Dune", "SciFi", 9, "http://x"⟩⟩) :=
  add_valid_movie ⟨[], 1⟩ "Dune" "SciFi" "http://x" 9
    (by decide) (by decide) (by decide) (by norm_num) (by norm_num)

/-- C6: every payload with a missing required field or an out-of-range
rating is rejected with 400 `Invalid data` and the store is returned
unchanged (nothing is persisted). -/
theorem add_invalid_movie (st : Store) (b : MovieInput)
    (h : b.title = none ∨ b.genre = none ∨ b.rating = none ∨ b.streamingLink = none ∨
         ∃ r, b.rating = some r ∧ (r < 0 ∨ 10 < r)) :
    addMovie st b = (st, ⟨400, .msg "Invalid data"⟩) := by
  obtain ⟨t?, g?, r?, l?⟩ := b
  rcases t? with _ | t
  · simp [addMovie, saveMovie]
  rcases g? with _ | g
  · simp [addMovie, saveMovie]
  rcases r? with _ | r
  · simp [addMovie, saveMovie]
  rcases l? with _ | l
  · simp [addMovie, saveMovie]
  rcases h with h | h | h | h | ⟨r2, hr2, hout⟩
  · exact Option.noConfusion h
  · exact Option.noConfusion h
  · exact Option.noConfusion h
  · exact Option.noConfusion h
  have hrr : r = r2 := Option.some.inj hr2
  subst hrr
  have hv : validateMovie t g r l = false := by
    rcases hout with h1 | h1
    · simp [validateMovie, decide_eq_false (not_le.mpr h1)]
    · simp [validateMovie, decide_eq_false (not_le.mpr h1)]
  simp [addMovie, saveMovie, hv]

/-- Witness for `add_invalid_movie`: a payload with rating 11 is rejected
and nothing is stored. -/
theorem add_invalid_movie_witness :
    addMovie ⟨[mAbc], 2⟩ ⟨some "T", some "G", some 11, some "L"⟩ =
      (⟨[mAbc], 2⟩, ⟨400, .msg "Invalid data"⟩) :=
  add_invalid_movie ⟨[mAbc], 2⟩ ⟨some "T", some "G", some 11, some "L"⟩
    (Or.inr (Or.inr (Or.inr (Or.inr ⟨11, rfl, Or.inr (by norm_num)⟩))))

theorem Option_getD_getD {α : Type} (o : Option α) (a : α) :
    o.getD (o.getD a) = o.getD a := by
  cases o <;> rfl

theorem applyUpdate_applyUpdate (m : Movie) (u : UpdateBody) :
    applyUpdate (applyUpdate m u) u = applyUpdate m u := by
  simp [applyUpdate, Option_getD_getD]

theorem find?_map_update (l : List Movie) (i : Nat) (n : Movie) (hn : n.id = i) :
    (l.map (fun d => if d.id == i then n else d)).find? (fun d => d.id == i) =
      (l.find? (fun d => d.id == i)).map (fun _ => n) := by
  induction l with
  | nil => rfl
  | cons d l ih =>
      by_cases hd : (d.id == i) = true
      · have hnb : (n.id == i) = true := by rw [hn]; simp
        rw [List.map_cons, if_pos hd,
          (List.find?_cons_of_pos (l.map (fun d => if d.id == i then n else d)) hnb :
            List.find? (fun d => d.id == i) (n :: l.map (fun d => if d.id == i then n else d)) =
              some n),
          (List.find?_cons_of_pos l hd :
            List.find? (fun d => d.id == i) (d :: l) = some d)]
        rfl
      · rw [List.map_cons, if_neg hd,
          (List.find?_cons_of_neg (l.map (fun d => if d.id == i then n else d)) hd :
            List.find? (fun d => d.id == i) (d :: l.map (fun d => if d.id == i then n else d)) =
              List.find? (fun d => d.id == i) (l.map (fun d => if d.id == i then n else d))),
          (List.find?_cons_of_neg l hd :
            List.find? (fun d => d.id == i) (d :: l) = List.find? (fun d => d.id == i) l),
          ih]

/-- C7: re-applying the same partial update to the same id leaves the
store state, as observed by `listMovies`, exactly as after the first
application: the update is idempotent. -/
theorem update_idempotent (st : Store) (idStr : String) (u : UpdateBody)
    (i : Nat) (hc : castId idStr = some i) (m : Movie) (hm : m ∈ st.docs) (hmi : m.id = i) :
    listMovies (updateMovie (updateMovie st idStr u).1 idStr u).1 =
      listMovies (updateMovie st idStr u).1 := by
  obtain ⟨m0, h0⟩ : ∃ m0, st.docs.find? (fun d => d.id == i) = some m0 :=
    Option.isSome_iff_exists.mp
      (List.find?_isSome.mpr ⟨m, hm, by simp [hmi]⟩)
  have hm0i : m0.id = i := by simpa using List.find?_some h0
  have hni : (applyUpdate m0 u).id = i := by simp [applyUpdate, hm0i]
  have h1 : updateMovie st idStr u =
      ({ docs := st.docs.map (fun d => if d.id == i then applyUpdate m0 u else d),
         nextId := st.nextId },
       ⟨200, .movie (applyUpdate m0 u)⟩) := by
    simp [updateMovie, findByIdAndUpdate, hc, h0]
  have hfind2 : (st.docs.map (fun d => if d.id == i then applyUpdate m0 u else d)).find?
      (fun d => d.id == i) = some (applyUpdate m0 u) := by
    rw [find?_map_update st.docs i (applyUpdate m0 u) hni, h0]
    rfl
  have h2 : updateMovie
      ({ docs := st.docs.map (fun d => if d.id == i then applyUpdate m0 u else d),
         nextId := st.nextId } : Store) idStr u =
      ({ docs := (st.docs.map (fun d => if d.id == i then applyUpdate m0 u else d)).map
           (fun d => if d.id == i then applyUpdate (applyUpdate m0 u) u else d),
         nextId := st.nextId },
       ⟨200, .movie (applyUpdate (applyUpdate m0 u) u)⟩) := by
    simp only [updateMovie, findByIdAndUpdate, hc, hfind2]
  have hmaps : (st.docs.map (fun d => if d.id == i then applyUpdate m0 u else d)).map
      (fun d => if d.id == i then applyUpdate m0 u else d) =
      st.docs.map (fun d => if d.id == i then applyUpdate m0 u else d) := by
    rw [List.map_map]
    refine List.map_congr_left (fun d _ => ?_)
    by_cases hd : (d.id == i) = true
    · simp only [Function.comp_apply, if_pos hd, ite_self]
    · simp only [Function.comp_apply, if_neg hd]
  rw [h1]
  dsimp only
  rw [h2]
  rw [applyUpdate_applyUpdate m0 u, hmaps]

/-- Witness for `update_idempotent`: applying the same title change twice
to the movie with id 1 yields the same listing as applying it once. -/
theorem update_idempotent_witness :
    listMovies (updateMovie (updateMovie ⟨[mAbc], 2⟩ "1" { title := some "xyz" }).1
        "1" { title := some "xyz" }).1 =
      listMovies (updateMovie ⟨[mAbc], 2⟩ "1" { title := some "xyz" }).1 :=
  update_idempotent ⟨[mAbc], 2⟩ "1" { title := some "xyz" } 1 (by decide)
    mAbc (by decide) (by decide)

/-- C8: for a castable id, `deleteMovie` removes every document with that
id and responds 200 with the confirmation message when one exists, and
responds 404 with the store unchanged when none does; a store failure
(an id string whose cast throws) yields 500 `Server error`. -/
theorem delete_spec (st : Store) (idStr : String) :
    (∀ i, castId idStr = some i →
      ((∃ m ∈ st.docs, m.id = i) →
        deleteMovie st idStr =
          ({ docs := st.docs.filter (fun d => !(d.id == i)), nextId := st.nextId },
           ⟨200, .msg "Movie deleted successfully"⟩)) ∧
      ((∀ m ∈ st.docs, m.id ≠ i) →
        deleteMovie st idStr = (st, ⟨404, .msg "Movie not found"⟩))) ∧
    (castId idStr = none → deleteMovie st idStr = (st, ⟨500, .msg "Server error"⟩)) := by
  refine ⟨fun i hci => ⟨fun hex => ?_, fun hnone => ?_⟩, fun hc => ?_⟩
  · obtain ⟨m1, hm1, hmi⟩ := hex
    obtain ⟨m0, h0⟩ : ∃ m0, st.docs.find? (fun d => d.id == i) = some m0 :=
      Option.isSome_iff_exists.mp
        (List.find?_isSome.mpr ⟨m1, hm1, by simp [hmi]⟩)
    simp only [deleteMovie, findByIdAndDelete, hci, h0]
  · have hfn : st.docs.find? (fun d => d.id == i) = none :=
      List.find?_eq_none.mpr (fun x hx => by simp [hnone x hx])
    simp only [deleteMovie, findByIdAndDelete, hci, hfn]
  · simp only [deleteMovie, findByIdAndDelete, hc]

/-- Witness for `delete_spec`: deleting id 1 from a one-movie store
removes it with 200, deleting id 7 responds 404, and the uncastable id
`abc` responds 500. -/
theorem delete_spec_witness :
    deleteMovie ⟨[mAbc], 2⟩ "1" =
      ({ docs := List.filter (fun d => !(d.id == 1)) [mAbc], nextId := 2 },
       ⟨200, .msg "Movie deleted successfully"⟩) ∧
    deleteMovie ⟨[mAbc], 2⟩ "7" = (⟨[mAbc], 2⟩, ⟨404, .msg "Movie not found"⟩) ∧
    deleteMovie ⟨[mAbc], 2⟩ "abc" = (⟨[mAbc], 2⟩, ⟨500, .msg "Server error"⟩) :=
  ⟨((delete_spec ⟨[mAbc], 2⟩ "1").1 1 (by decide)).1 (by decide),
   ((delete_spec ⟨[mAbc], 2⟩ "7").1 7 (by decide)).2 (by decide),
   (delete_spec ⟨[mAbc], 2⟩ "abc").2 (by decide)⟩

/-- C9: an id string whose store cast throws (for example a malformed
identifier) makes `updateMovie` respond 400 `Invalid data` and
`deleteMovie` respond 500 `Server error`; neither responds 404, although
no record with that id exists. -/
theorem malformed_id_responses (st : Store) (idStr : String) (u : UpdateBody)
    (h : castId idStr = none) :
    updateMovie st idStr u = (st, ⟨400, .msg "Invalid data"⟩) ∧
    deleteMovie st idStr = (st, ⟨500, .msg "Server error"⟩) ∧
    (updateMovie st idStr u).2.status ≠ 404 ∧
    (deleteMovie st idStr).2.status ≠ 404 := by
  have h1 : updateMovie st idStr u = (st, ⟨400, .msg "Invalid data"⟩) := by
    simp only [updateMovie, findByIdAndUpdate, h]
  have h2 : deleteMovie st idStr = (st, ⟨500, .msg "Server error"⟩) := by
    simp only [deleteMovie, findByIdAndDelete, h]
  exact ⟨h1, h2, by rw [h1]; simp, by rw [h2]; simp⟩

/-- Witness for `malformed_id_responses` at the uncastable id `abc`. -/
theorem malformed_id_responses_witness :
    updateMovie ⟨[mAbc], 2⟩ "abc" { rating := some 3 } =
      (⟨[mAbc], 2⟩, ⟨400, .msg "Invalid data"⟩) ∧
    deleteMovie ⟨[mAbc], 2⟩ "abc" = (⟨[mAbc], 2⟩, ⟨500, .msg "Server error"⟩) ∧
    (updateMovie ⟨[mAbc], 2⟩ "abc" { rating := some 3 }).2.status ≠ 404 ∧
    (deleteMovie ⟨[mAbc], 2⟩ "abc").2.status ≠ 404 :=
  malformed_id_responses ⟨[mAbc], 2⟩ "abc" { rating := some 3 } (by decide)

/-- C10: a successful update touches only the targeted record, and on it
only the fields present in the body: present fields take the body's
values, absent fields keep the record's values, the id is untouched,
every record with a different id is still in the store, and the empty
body leaves the record unmodified. -/
theorem update_frame (st : Store) (idStr : String) (u : UpdateBody)
    (i : Nat) (hc : castId idStr = some i) (hex : ∃ m ∈ st.docs, m.id = i) :
    ∃ m0, st.docs.find? (fun d => d.id == i) = some m0 ∧
      updateMovie st idStr u =
        ({ docs := st.docs.map (fun d => if d.id == i then applyUpdate m0 u else d),
           nextId := st.nextId },
         ⟨200, .movie (applyUpdate m0 u)⟩) ∧
      (∀ t, u.title = some t → (applyUpdate m0 u).title = t) ∧
      (u.title = none → (applyUpdate m0 u).title = m0.title) ∧
      (∀ g, u.genre = some g → (applyUpdate m0 u).genre = g) ∧
      (u.genre = none → (applyUpdate m0 u).genre = m0.genre) ∧
      (∀ r, u.rating = some r → (applyUpdate m0 u).rating = r) ∧
      (u.rating = none → (applyUpdate m0 u).rating = m0.rating) ∧
      (∀ l, u.streamingLink = some l → (applyUpdate m0 u).streamingLink = l) ∧
      (u.streamingLink = none → (applyUpdate m0 u).streamingLink = m0.streamingLink) ∧
      (applyUpdate m0 u).id = m0.id ∧
      (∀ d ∈ st.docs, d.id ≠ i → d ∈ (updateMovie st idStr u).1.docs) ∧
      applyUpdate m0 ⟨none, none, none, none⟩ = m0 := by
  obtain ⟨m1, hm1, hmi⟩ := hex
  obtain ⟨m0, h0⟩ : ∃ m0, st.docs.find? (fun d => d.id == i) = some m0 :=
    Option.isSome_iff_exists.mp
      (List.find?_isSome.mpr ⟨m1, hm1, by simp [hmi]⟩)
  have hupd : updateMovie st idStr u =
      ({ docs := st.docs.map (fun d => if d.id == i then applyUpdate m0 u else d),
         nextId := st.nextId },
       ⟨200, .movie (applyUpdate m0 u)⟩) := by
    simp only [updateMovie, findByIdAndUpdate, hc, h0]
  refine ⟨m0, h0, hupd, ?_, ?_, ?_, ?_, ?_, ?_, ?_, ?_, rfl, ?_, ?_⟩
  · intro t ht; simp [applyUpdate, ht]
  · intro ht; simp [applyUpdate, ht]
  · intro g hg; simp [applyUpdate, hg]
  · intro hg; simp [applyUpdate, hg]
  · intro r hr; simp [applyUpdate, hr]
  · intro hr; simp [applyUpdate, hr]
  · intro l hl; simp [applyUpdate, hl]
  · intro hl; simp [applyUpdate, hl]
  · intro d hd hdne
    rw [hupd]
    exact List.mem_map.mpr ⟨d, hd, by simp [hdne]⟩
  · rfl

/-- Witness for `update_frame`: updating only the genre of the movie with
id 1 in a one-movie store. -/
theorem update_frame_witness :
    ∃ m0, (⟨[mAbc], 2⟩ : Store).docs.find? (fun d => d.id == 1) = some m0 ∧
      updateMovie ⟨[mAbc], 2⟩ "1" { genre := some "Thriller" } =
        ({ docs := (⟨[mAbc], 2⟩ : Store).docs.map
             (fun d => if d.id == 1 then applyUpdate m0 { genre := some "Thriller" } else d),
           nextId := 2 },
         ⟨200, .movie (applyUpdate m0 { genre := some "Thriller" })⟩) ∧
      (∀ t, ({ genre := some "Thriller" } : UpdateBody).title = some t →
        (applyUpdate m0 { genre := some "Thriller" }).title = t) ∧
      (({ genre := some "Thriller" } : UpdateBody).title = none →
        (applyUpdate m0 { genre := some "Thriller" }).title = m0.title) ∧
      (∀ g, ({ genre := some "Thriller" } : UpdateBody).genre = some g →
        (applyUpdate m0 { genre := some "Thriller" }).genre = g) ∧
      (({ genre := some "Thriller" } : UpdateBody).genre = none →
        (applyUpdate m0 { genre := some "Thriller" }).genre = m0.genre) ∧
      (∀ r, ({ genre := some "Thriller" } : UpdateBody).rating = some r →
        (applyUpdate m0 { genre := some "Thriller" }).rating = r) ∧
      (({ genre := some "Thriller" } : UpdateBody).rating = none →
        (applyUpdate m0 { genre := some "Thriller" }).rating = m0.rating) ∧
      (∀ l, ({ genre := some "Thriller" } : UpdateBody).streamingLink = some l →
        (applyUpdate m0 { genre := some "Thriller" }).streamingLink = l) ∧
      (({ genre := some "Thriller" } : UpdateBody).streamingLink = none →
        (applyUpdate m0 { genre := some "Thriller" }).streamingLink = m0.streamingLink) ∧
      (applyUpdate m0 { genre := some "Thriller" }).id = m0.id ∧
      (∀ d ∈ (⟨[mAbc], 2⟩ : Store).docs, d.id ≠ 1 →
        d ∈ (updateMovie ⟨[mAbc], 2⟩ "1" { genre := some "Thriller" }).1.docs) ∧
      applyUpdate m0 ⟨none, none, none, none⟩ = m0 :=
  update_frame ⟨[mAbc], 2⟩ "1" { genre := some "Thriller" } 1 (by decide)
    ⟨mAbc, by decide, rfl⟩

end MovieLobby
